import Mathlib

/-!
Verification of the payment-service simulator and its traffic generator.

The payment service (`payment-service/app.js`) exposes simulated payment,
refund, status-lookup and health endpoints; the traffic generator drives a
weighted mix of calls against them while maintaining a bounded pool of
successful payment ids.  We embed the request handlers and the generator's
tick loop as pure Lean functions: every call to `Math.random()` becomes an
explicit rational draw parameter in `[0,1)`, `setTimeout` becomes a
`delayed` result carrying its delay, and JavaScript truthiness of request
fields is modelled explicitly on a small value type.
-/

namespace PaymentSim

/-- A JavaScript value as it appears in a parsed JSON request body:
absent fields are `undef`, and truthiness follows JS rules. -/
inductive JsValue where
  | undef
  | num (q : ℚ)
  | str (s : String)
  | obj
deriving DecidableEq

/-- JavaScript truthiness of a request-body field: `undefined`, `0` and the
empty string are falsy. -/
def JsValue.truthy : JsValue → Bool
  | .undef => false
  | .num q => q != 0
  | .str s => s != ""
  | .obj => true

/-- Correlation context attached to each request by the middleware:
a trace id and a per-request transaction id. -/
structure Ctx where
  traceId : String
  transactionId : String
deriving DecidableEq

/-- `req.headers['x-trace-id'] || uuidv4()`: keep the inbound header when it
is present and non-empty (truthy), otherwise use a freshly generated token. -/
def correlationTraceId (header : Option String) (freshTrace : String) : String :=
  match header with
  | some h => if h = "" then freshTrace else h
  | none => freshTrace

/-- A structured log event, holding the fields the embedded handlers emit. -/
structure Event where
  level : String
  trace_id : String
  transaction_id : String
  event_type : String
  message : String := ""
  payment_id : Option String := none
  refund_id : Option String := none
  processing_time : Option ℤ := none
  error : Option String := none
  status_code : Option ℕ := none
deriving DecidableEq

/-- The request-id middleware: derives the trace id from the inbound header,
always takes a fresh transaction id, sets both response headers, and logs the
incoming request with both correlators. -/
def correlationMiddleware (header : Option String) (freshTrace freshTxn : String) :
    Ctx × List (String × String) × Event :=
  let traceId := correlationTraceId header freshTrace
  (⟨traceId, freshTxn⟩,
   [("x-trace-id", traceId), ("x-transaction-id", freshTxn)],
   { level := "info", trace_id := traceId, transaction_id := freshTxn,
     message := "Incoming request", event_type := "request" })

/-- The body of a JSON response from the service. -/
structure ResponseBody where
  success : Bool
  payment_id : Option String := none
  refund_id : Option String := none
  error : Option String := none
  amount : Option JsValue := none
  currency : Option JsValue := none
  status : Option String := none
deriving DecidableEq

/-- The result of a handler: either a synchronous response, or one scheduled
by `setTimeout` after `delayMs` milliseconds. -/
inductive HandlerResult where
  | immediate (statusCode : ℕ) (body : ResponseBody)
  | delayed (delayMs : ℤ) (statusCode : ℕ) (body : ResponseBody)
deriving DecidableEq

/-- The delay of a handler result, `none` when it responds synchronously. -/
def HandlerResult.delay? : HandlerResult → Option ℤ
  | .immediate _ _ => none
  | .delayed d _ _ => some d

/-- The HTTP status of a handler result. -/
def HandlerResult.status : HandlerResult → ℕ
  | .immediate s _ => s
  | .delayed _ s _ => s

/-- The body of a handler result. -/
def HandlerResult.body : HandlerResult → ResponseBody
  | .immediate _ b => b
  | .delayed _ _ b => b

/-- Terminal outcome of a simulated payment. -/
inductive Outcome where
  | gatewayTimeout
  | validationError (reason : String)
  | processorFailure
  | success
deriving DecidableEq

/-- `Math.random() < 0.5 ? 'Invalid card details' : 'Insufficient funds'`. -/
def errorReason (r : ℚ) : String :=
  if r < 1/2 then "Invalid card details" else "Insufficient funds"

/-- Outcome selection of `POST /api/payments`: three Bernoulli draws
(`simulateFailure` at 0.2, `simulateTimeout` at 0.05,
`simulateValidationError` at 0.1) feeding an if/else chain checked in the
order timeout, validation error, failure, success. -/
def paymentOutcome (timeoutDraw validationDraw failureDraw reasonDraw : ℚ) : Outcome :=
  let simulateFailure := failureDraw < 2/10
  let simulateTimeout := timeoutDraw < 5/100
  let simulateValidationError := validationDraw < 1/10
  if simulateTimeout then .gatewayTimeout
  else if simulateValidationError then .validationError (errorReason reasonDraw)
  else if simulateFailure then .processorFailure
  else .success

/-- HTTP status attached to each payment outcome. -/
def outcomeStatus : Outcome → ℕ
  | .gatewayTimeout => 504
  | .validationError _ => 400
  | .processorFailure => 500
  | .success => 200

/-- `Math.floor(Math.random() * 1950) + 50`. -/
def paymentProcessingTime (r : ℚ) : ℤ := ⌊r * 1950⌋ + 50

/-- `Math.floor(Math.random() * 1500) + 100`. -/
def refundProcessingTime (r : ℚ) : ℤ := ⌊r * 1500⌋ + 100

/-- A payment request body; absent fields are `JsValue.undef`. -/
structure PaymentRequest where
  amount : JsValue
  currency : JsValue
  customerId : JsValue
  cardDetails : JsValue := .undef
deriving DecidableEq

/-- The `POST /api/payments` handler.  Draw parameters stand for the
successive `Math.random()` calls; `freshToken` for `faker.finance.account(10)`.
Returns the response (synchronous for the missing-fields path, delayed by the
simulated processing time otherwise) together with the emitted events. -/
def processPayment (ctx : Ctx) (req : PaymentRequest)
    (processingDraw failureDraw timeoutDraw validationDraw reasonDraw : ℚ)
    (freshToken : String) : HandlerResult × List Event :=
  if !req.amount.truthy || !req.currency.truthy || !req.customerId.truthy then
    (.immediate 400 { success := false, error := some "Missing required fields for payment" },
     [{ level := "error", trace_id := ctx.traceId, transaction_id := ctx.transactionId,
        message := "Payment validation failed", status_code := some 400,
        error := some "Missing required fields", event_type := "payment_validation_error" }])
  else
    let paymentId := "pmt_" ++ freshToken
    let processingTime := paymentProcessingTime processingDraw
    let outcome := paymentOutcome timeoutDraw validationDraw failureDraw reasonDraw
    let processingEvent : Event :=
      { level := "info", trace_id := ctx.traceId, transaction_id := ctx.transactionId,
        message := "Processing payment", payment_id := some paymentId,
        event_type := "payment_processing" }
    match outcome with
    | .gatewayTimeout =>
        (.delayed processingTime 504
           { success := false, payment_id := some paymentId,
             error := some "Payment gateway timeout" },
         [processingEvent,
          { level := "error", trace_id := ctx.traceId, transaction_id := ctx.transactionId,
            message := "Payment gateway timeout", payment_id := some paymentId,
            status_code := some 504, error := some "Payment gateway timeout",
            processing_time := some processingTime, event_type := "payment_timeout" }])
    | .validationError reason =>
        (.delayed processingTime 400
           { success := false, payment_id := some paymentId, error := some reason },
         [processingEvent,
          { level := "error", trace_id := ctx.traceId, transaction_id := ctx.transactionId,
            message := "Payment validation error", payment_id := some paymentId,
            status_code := some 400, error := some reason,
            processing_time := some processingTime, event_type := "payment_validation_error" }])
    | .processorFailure =>
        (.delayed processingTime 500
           { success := false, payment_id := some paymentId,
             error := some "Payment processor error" },
         [processingEvent,
          { level := "error", trace_id := ctx.traceId, transaction_id := ctx.transactionId,
            message := "Payment processing failed", payment_id := some paymentId,
            status_code := some 500, error := some "Payment processor error",
            processing_time := some processingTime, event_type := "payment_failure" }])
    | .success =>
        (.delayed processingTime 200
           { success := true, payment_id := some paymentId,
             amount := some req.amount, currency := some req.currency,
             status := some "completed" },
         [processingEvent,
          { level := "info", trace_id := ctx.traceId, transaction_id := ctx.transactionId,
            message := "Payment processed successfully", payment_id := some paymentId,
            status_code := some 200,
            processing_time := some processingTime, event_type := "payment_success" }])

/-- A refund request body; absent fields are `JsValue.undef`. -/
structure RefundRequest where
  paymentId : JsValue
  amount : JsValue
  reason : JsValue := .undef
deriving DecidableEq

/-- The `POST /api/refunds` handler: validates `paymentId` and `amount`,
draws a delay in `[100, 1599]` and one failure Bernoulli at 0.15. -/
def processRefund (ctx : Ctx) (req : RefundRequest)
    (processingDraw failureDraw : ℚ) (freshToken : String) :
    HandlerResult × List Event :=
  if !req.paymentId.truthy || !req.amount.truthy then
    (.immediate 400 { success := false, error := some "Missing required fields for refund" },
     [{ level := "error", trace_id := ctx.traceId, transaction_id := ctx.transactionId,
        message := "Refund validation failed", status_code := some 400,
        error := some "Missing required fields", event_type := "refund_validation_error" }])
  else
    let refundId := "ref_" ++ freshToken
    let processingTime := refundProcessingTime processingDraw
    let simulateFailure := failureDraw < 15/100
    let processingEvent : Event :=
      { level := "info", trace_id := ctx.traceId, transaction_id := ctx.transactionId,
        message := "Processing refund", refund_id := some refundId,
        event_type := "refund_processing" }
    if simulateFailure then
      (.delayed processingTime 500
         { success := false, refund_id := some refundId,
           error := some "Refund processor error" },
       [processingEvent,
        { level := "error", trace_id := ctx.traceId, transaction_id := ctx.transactionId,
          message := "Refund processing failed", refund_id := some refundId,
          status_code := some 500, error := some "Refund processor error",
          processing_time := some processingTime, event_type := "refund_failure" }])
    else
      (.delayed processingTime 200
         { success := true, refund_id := some refundId, amount := some req.amount,
           status := some "completed" },
       [processingEvent,
        { level := "info", trace_id := ctx.traceId, transaction_id := ctx.transactionId,
          message := "Refund processed successfully", refund_id := some refundId,
          status_code := some 200,
          processing_time := some processingTime, event_type := "refund_success" }])

/-- The four statuses `GET /api/payments/:paymentId` draws from. -/
def statuses : List String := ["completed", "pending", "failed", "refunded"]

/-- Response of the status-lookup endpoint. -/
structure LookupResult where
  httpStatus : ℕ
  payment_id : String
  status : String
  delayMs : ℤ
deriving DecidableEq

/-- The `GET /api/payments/:paymentId` handler:
`statuses[Math.floor(Math.random() * statuses.length)]` with a delay of
`Math.floor(Math.random() * 290) + 10`; `res.json` responds with status 200. -/
def statusLookup (pid : String) (statusDraw delayDraw : ℚ) : LookupResult :=
  { httpStatus := 200
    payment_id := pid
    status := statuses.getD (⌊statusDraw * (statuses.length : ℚ)⌋).toNat ""
    delayMs := ⌊delayDraw * 290⌋ + 10 }

/-! ### Traffic generator (load-generator script) -/

/-- One successful payment id entering the generator's pool:
`push` it, then `shift()` the oldest entry when the length exceeds 100. -/
def pushPayment (pool : List String) (pid : String) : List String :=
  let p := pool ++ [pid]
  if 100 < p.length then p.drop 1 else p

/-- `getRandomInt(0, len - 1)` as the generator uses it to pick a pool
index: `Math.floor(r * len)`. -/
def chooseIndex (r : ℚ) (len : ℕ) : ℕ := (⌊r * (len : ℚ)⌋).toNat

/-- Action chosen by one tick of the generator's load loop. -/
inductive GenAction where
  | payment
  | statusCheck (pid : String)
  | refund (pid : String)
  | healthCheck
deriving DecidableEq

/-- One tick of the generator's load loop: one uniform draw `rType` selects
the action by cumulative thresholds 0.6 / 0.8 / 0.95; `rIdx` picks the pool
entry for status checks and refunds, `rCoin` is the post-refund eviction
coin (`Math.random() > 0.5` evicts via `splice`), and `payResult` is the
payment id returned by a new payment (`none` when the request failed).
Fallback payments in the status and refund branches discard their result. -/
def tick (rType rIdx rCoin : ℚ) (payResult : Option String) (pool : List String) :
    GenAction × List String :=
  if rType < 6/10 then
    (.payment,
     match payResult with
     | some pid => pushPayment pool pid
     | none => pool)
  else if rType < 8/10 then
    if 0 < pool.length then
      (.statusCheck (pool.getD (chooseIndex rIdx pool.length) ""), pool)
    else
      (.payment, pool)
  else if rType < 95/100 then
    if 0 < pool.length then
      let i := chooseIndex rIdx pool.length
      (.refund (pool.getD i ""), if 1/2 < rCoin then pool.eraseIdx i else pool)
    else
      (.payment, pool)
  else
    (.healthCheck, pool)

/-- `CONFIG.runForever` as the generator computes it:
`process.env.RUN_FOREVER === 'true' || true`. -/
def configRunForever (envRunForever : Option String) : Bool :=
  (envRunForever == some "true") || true

/-- The stop check at the head of each load-loop tick:
`!CONFIG.runForever && Date.now() > endTime`. -/
def loadLoopStops (envRunForever : Option String) (now endTime : ℕ) : Bool :=
  !configRunForever envRunForever && decide (endTime < now)

/-! ### Module loading of payment-service/app.js -/

/-- The top-level `const` bindings of `payment-service/app.js`, in source
order: the seven `require` bindings, `PORT`, `SERVICE_NAME`, the two
`logger` declarations (lines 14 and 24), and `app`. -/
def paymentServiceConsts : List String :=
  ["express", "uuidv4", "pino", "bodyParser", "faker", "path", "fs",
   "PORT", "SERVICE_NAME", "logger", "logger", "app"]

/-- JavaScript module instantiation: a module body whose lexical `const`
declarations are not pairwise distinct is rejected with a `SyntaxError`
before any statement runs. -/
def jsModuleLoad (decls : List String) : Except String Unit :=
  if decls.Nodup then .ok ()
  else .error "SyntaxError: Identifier has already been declared"

/-- Whether the server of `payment-service/app.js` is ever created:
`app.listen` runs only if the module body loads. -/
def paymentServiceStarts : Bool := (jsModuleLoad paymentServiceConsts).toBool

/-! ### Specification-side definitions for refinement claims -/

/-- Modelled from the spec: §4.3's outcome selection in its own words —
priority-ordered short-circuiting Bernoulli checks, timeout at 0.05,
validation error at 0.10, processor failure at 0.20, else success. -/
def specPriorityOutcome (timeoutDraw validationDraw failureDraw reasonDraw : ℚ) : Outcome :=
  if timeoutDraw < 5/100 then .gatewayTimeout
  else if validationDraw < 10/100 then .validationError (errorReason reasonDraw)
  else if failureDraw < 20/100 then .processorFailure
  else .success

/-! ### Outcome classification and the discrete draw grid -/

/-- Whether an outcome is the gateway-timeout branch. -/
def Outcome.isTimeout : Outcome → Bool
  | .gatewayTimeout => true
  | _ => false

/-- Whether an outcome is the validation-error branch. -/
def Outcome.isValidationError : Outcome → Bool
  | .validationError _ => true
  | _ => false

/-- Whether an outcome is the processor-failure branch. -/
def Outcome.isFailure : Outcome → Bool
  | .processorFailure => true
  | _ => false

/-- Whether an outcome is the success branch. -/
def Outcome.isSuccess : Outcome → Bool
  | .success => true
  | _ => false

/-- How many of the four outcome branches an outcome belongs to. -/
def branchCount (o : Outcome) : ℕ :=
  o.isTimeout.toNat + o.isValidationError.toNat + o.isFailure.toNat + o.isSuccess.toNat

/-- Number of cells of the uniform draw grid `Fin 20 × Fin 10 × Fin 5`
(timeout draw in twentieths, validation draw in tenths, failure draw in
fifths — each axis resolving its branch's threshold exactly) whose outcome
satisfies `p`.  The grid has 1000 equiprobable cells, so each count is the
marginal probability in tenths of a percent. -/
def outcomeGridCount (p : Outcome → Bool) : ℕ :=
  ((Finset.univ : Finset (Fin 20 × Fin 10 × Fin 5)).filter
    (fun x => p (paymentOutcome (((x.1 : ℕ) : ℚ)/20) (((x.2.1 : ℕ) : ℚ)/10)
      (((x.2.2 : ℕ) : ℚ)/5) 0) = true)).card

/-- The outcome function restricted to the grid, phrased on the integer
coordinates. -/
def paymentOutcomeGridNat (t : Fin 20) (v : Fin 10) (f : Fin 5) : Outcome :=
  if (t : ℕ) < 1 then .gatewayTimeout
  else if (v : ℕ) < 1 then .validationError "Invalid card details"
  else if (f : ℕ) < 1 then .processorFailure
  else .success

end PaymentSim

namespace PaymentSim

lemma grid_cast_lt (n : ℕ) (hn : 0 < n) (k m : ℕ) :
    ((k : ℚ))/(n : ℚ) < (m : ℚ)/(n : ℚ) ↔ k < m := by
  rw [div_lt_div_iff_of_pos_right (by exact_mod_cast hn : (0:ℚ) < n)]
  exact_mod_cast Iff.rfl

lemma paymentOutcome_grid (t : Fin 20) (v : Fin 10) (f : Fin 5) :
    paymentOutcome (((t : ℕ) : ℚ)/20) (((v : ℕ) : ℚ)/10) (((f : ℕ) : ℚ)/5) 0
      = paymentOutcomeGridNat t v f := by
  unfold paymentOutcome paymentOutcomeGridNat errorReason
  have h1 : (((t : ℕ) : ℚ)/20 < 5/100) ↔ ((t : ℕ) < 1) := by
    rw [show (5 : ℚ)/100 = ((1 : ℕ) : ℚ)/((20 : ℕ) : ℚ) by norm_num,
      show ((20 : ℚ)) = ((20 : ℕ) : ℚ) by norm_num, grid_cast_lt 20 (by norm_num)]
  have h2 : (((v : ℕ) : ℚ)/10 < 1/10) ↔ ((v : ℕ) < 1) := by
    rw [show (1 : ℚ)/10 = ((1 : ℕ) : ℚ)/((10 : ℕ) : ℚ) by norm_num,
      show ((10 : ℚ)) = ((10 : ℕ) : ℚ) by norm_num, grid_cast_lt 10 (by norm_num)]
  have h3 : (((f : ℕ) : ℚ)/5 < 2/10) ↔ ((f : ℕ) < 1) := by
    rw [show (2 : ℚ)/10 = ((1 : ℕ) : ℚ)/((5 : ℕ) : ℚ) by norm_num,
      show ((5 : ℚ)) = ((5 : ℕ) : ℚ) by norm_num, grid_cast_lt 5 (by norm_num)]
  simp only [h1, h2, h3]
  norm_num

lemma outcomeGridCount_eq_nat (p : Outcome → Bool) :
    outcomeGridCount p =
      ((Finset.univ : Finset (Fin 20 × Fin 10 × Fin 5)).filter
        (fun x => p (paymentOutcomeGridNat x.1 x.2.1 x.2.2) = true)).card := by
  unfold outcomeGridCount
  congr 1
  apply Finset.filter_congr
  intro x _
  rw [paymentOutcome_grid]

set_option maxRecDepth 40000 in
lemma outcomeGridCount_values :
    outcomeGridCount Outcome.isTimeout = 50 ∧
    outcomeGridCount Outcome.isValidationError = 95 ∧
    outcomeGridCount Outcome.isFailure = 171 ∧
    outcomeGridCount Outcome.isSuccess = 684 := by
  rw [outcomeGridCount_eq_nat, outcomeGridCount_eq_nat, outcomeGridCount_eq_nat,
    outcomeGridCount_eq_nat]
  refine ⟨by decide, by decide, by decide, by decide⟩

lemma paymentOutcome_eq_spec (t v f r : ℚ) :
    paymentOutcome t v f r = specPriorityOutcome t v f r := by
  unfold paymentOutcome specPriorityOutcome
  norm_num

lemma branchCount_eq_one (o : Outcome) : branchCount o = 1 := by
  cases o <;> rfl

lemma processPayment_valid_result (ctx : Ctx) (req : PaymentRequest)
    (p fd t v r : ℚ) (tok : String)
    (ha : req.amount.truthy) (hb : req.currency.truthy) (hc : req.customerId.truthy) :
    (processPayment ctx req p fd t v r tok).1.status
        = outcomeStatus (paymentOutcome t v fd r) ∧
      (processPayment ctx req p fd t v r tok).1.delay?
        = some (paymentProcessingTime p) ∧
      ((processPayment ctx req p fd t v r tok).2.getLast?).bind Event.processing_time
        = some (paymentProcessingTime p) := by
  unfold processPayment
  rw [ha, hb, hc]
  cases hOut : paymentOutcome t v fd r <;>
    simp [hOut, HandlerResult.status, HandlerResult.delay?, outcomeStatus, List.getLast?]

/-- C1: for every valid payment request, the outcome of `processPayment` is
selected exactly as the spec's priority-ordered short-circuiting chain
(timeout 0.05 / status 504, then validation error 0.10 / status 400, then
processor failure 0.20 / status 500, then success / status 200); exactly one
branch fires, and on the uniform 1000-cell draw grid the marginal counts are
50, 95, 171 and 684, i.e. probabilities 5%, 9.5%, 17.1% and 68.4%. -/
theorem payment_outcome_priority_and_marginals :
    (∀ t v f r : ℚ, paymentOutcome t v f r = specPriorityOutcome t v f r) ∧
    (∀ t v f r : ℚ, branchCount (paymentOutcome t v f r) = 1) ∧
    (∀ (ctx : Ctx) (req : PaymentRequest) (p fd t v r : ℚ) (tok : String),
        req.amount.truthy → req.currency.truthy → req.customerId.truthy →
        (processPayment ctx req p fd t v r tok).1.status
          = outcomeStatus (paymentOutcome t v fd r)) ∧
    outcomeStatus .gatewayTimeout = 504 ∧
    (∀ s, outcomeStatus (.validationError s) = 400) ∧
    outcomeStatus .processorFailure = 500 ∧
    outcomeStatus .success = 200 ∧
    ((outcomeGridCount Outcome.isTimeout : ℚ))/1000 = 5/100 ∧
    ((outcomeGridCount Outcome.isValidationError : ℚ))/1000 = 95/1000 ∧
    ((outcomeGridCount Outcome.isFailure : ℚ))/1000 = 171/1000 ∧
    ((outcomeGridCount Outcome.isSuccess : ℚ))/1000 = 684/1000 := by
  obtain ⟨g1, g2, g3, g4⟩ := outcomeGridCount_values
  refine ⟨paymentOutcome_eq_spec, fun t v f r => branchCount_eq_one _,
    fun ctx req p fd t v r tok ha hb hc =>
      (processPayment_valid_result ctx req p fd t v r tok ha hb hc).1,
    rfl, fun s => rfl, rfl, rfl, ?_, ?_, ?_, ?_⟩
  all_goals norm_num [g1, g2, g3, g4]

/-- C1 witness: the status linkage instantiated at a concrete valid request
and concrete draws. -/
theorem payment_outcome_priority_and_marginals_witness :
    (JsValue.num 10).truthy ∧ (JsValue.str "USD").truthy ∧ (JsValue.str "c1").truthy ∧
    (processPayment ⟨"t", "x"⟩ ⟨.num 10, .str "USD", .str "c1", .undef⟩
        0 0 (1/2) (1/2) (1/2) "tok").1.status
      = outcomeStatus (paymentOutcome (1/2) (1/2) 0 (1/2)) :=
  ⟨by decide, by decide, by decide,
   payment_outcome_priority_and_marginals.2.2.1 ⟨"t", "x"⟩
     ⟨.num 10, .str "USD", .str "c1", .undef⟩ 0 0 (1/2) (1/2) (1/2) "tok"
     (by decide) (by decide) (by decide)⟩

/-- C5: contrary to the claim, the generator can never stop after the
configured duration — `CONFIG.runForever` is `(env === 'true') || true`,
which is `true` for every environment value, so the stop check at the head
of each load-loop tick is always false. -/
theorem generator_run_forever_code_bug :
    (∀ env : Option String, configRunForever env = true) ∧
    configRunForever (some "false") = true ∧
    configRunForever none = true ∧
    (∀ (env : Option String) (now endTime : ℕ), loadLoopStops env now endTime = false) := by
  refine ⟨fun env => ?_, rfl, rfl, fun env now endTime => ?_⟩ <;>
    simp [configRunForever, loadLoopStops]

/-- C8 counterexample: in the validation-error branch the reason strings are
`"Invalid card details"` and `"Insufficient funds"`, not the snake_case
strings the claim names. -/
theorem validation_reason_counterexample :
    paymentOutcome (1/2) 0 0 0 = .validationError "Invalid card details" ∧
    paymentOutcome (1/2) 0 0 (3/4) = .validationError "Insufficient funds" ∧
    "Invalid card details" ≠ "invalid_card_details" ∧
    "Invalid card details" ≠ "insufficient_funds" ∧
    "Insufficient funds" ≠ "insufficient_funds" ∧
    "Insufficient funds" ≠ "invalid_card_details" := by
  refine ⟨?_, ?_, by decide, by decide, by decide, by decide⟩ <;>
    · unfold paymentOutcome errorReason
      norm_num

/-- C8 amended: when the outcome selection takes the validation-error branch,
the reason is chosen uniformly (by a draw against 1/2) between exactly
`"Invalid card details"` and `"Insufficient funds"`, the reason is placed in
the response body and in the error event, and the response status is 400. -/
theorem validation_reason_amended :
    (∀ t v f r : ℚ, ¬ t < 5/100 → v < 1/10 →
        paymentOutcome t v f r = .validationError (errorReason r)) ∧
    (∀ r : ℚ, errorReason r = "Invalid card details" ∨
        errorReason r = "Insufficient funds") ∧
    (∀ r : ℚ, errorReason r = "Invalid card details" ↔ r < 1/2) ∧
    errorReason (1/4) = "Invalid card details" ∧
    errorReason (3/4) = "Insufficient funds" ∧
    (∀ s, outcomeStatus (.validationError s) = 400) ∧
    (∀ (ctx : Ctx) (req : PaymentRequest) (p fd t v r : ℚ) (tok : String),
        req.amount.truthy → req.currency.truthy → req.customerId.truthy →
        ¬ t < 5/100 → v < 1/10 →
        (processPayment ctx req p fd t v r tok).1.status = 400 ∧
        (processPayment ctx req p fd t v r tok).1.body.error
          = some (errorReason r) ∧
        ((processPayment ctx req p fd t v r tok).2.getLast?).bind Event.error
          = some (errorReason r)) := by
  have hsel : ∀ t v f r : ℚ, ¬ t < 5/100 → v < 1/10 →
      paymentOutcome t v f r = .validationError (errorReason r) := by
    intro t v f r ht hv
    simp only [paymentOutcome]
    rw [if_neg ht, if_pos hv]
  refine ⟨hsel, ?_, ?_, ?_, ?_, fun s => rfl, ?_⟩
  · intro r
    unfold errorReason
    split <;> simp
  · intro r
    unfold errorReason
    split <;> simp_all
  · unfold errorReason; norm_num
  · unfold errorReason; norm_num
  · intro ctx req p fd t v r tok ha hb hc ht hv
    unfold processPayment
    rw [ha, hb, hc]
    rw [hsel t v fd r ht hv]
    simp [HandlerResult.status, HandlerResult.body, List.getLast?]

/-- C8 amended witness: the branch instantiated at concrete draws forcing the
validation-error outcome. -/
theorem validation_reason_amended_witness :
    ¬ (1/2 : ℚ) < 5/100 ∧ (0 : ℚ) < 1/10 ∧
    (processPayment ⟨"t", "x"⟩ ⟨.num 10, .str "USD", .str "c1", .undef⟩
        0 0 (1/2) 0 (1/4) "tok").1.status = 400 :=
  ⟨by norm_num, by norm_num,
   (validation_reason_amended.2.2.2.2.2.2 ⟨"t", "x"⟩
     ⟨.num 10, .str "USD", .str "c1", .undef⟩ 0 0 (1/2) 0 (1/4) "tok"
     (by decide) (by decide) (by decide) (by norm_num) (by norm_num)).1⟩

lemma paymentProcessingTime_bounds {r : ℚ} (h0 : 0 ≤ r) (h1 : r < 1) :
    50 ≤ paymentProcessingTime r ∧ paymentProcessingTime r ≤ 1999 := by
  unfold paymentProcessingTime
  have hlb : (0:ℤ) ≤ ⌊r * 1950⌋ := Int.floor_nonneg.2 (by positivity)
  have hub : ⌊r * 1950⌋ < 1950 := by
    have hr : r * 1950 < 1950 := by nlinarith
    exact Int.floor_lt.2 (by exact_mod_cast hr)
  omega

lemma refundProcessingTime_bounds {r : ℚ} (h0 : 0 ≤ r) (h1 : r < 1) :
    100 ≤ refundProcessingTime r ∧ refundProcessingTime r ≤ 1599 := by
  unfold refundProcessingTime
  have hlb : (0:ℤ) ≤ ⌊r * 1500⌋ := Int.floor_nonneg.2 (by positivity)
  have hub : ⌊r * 1500⌋ < 1500 := by
    have hr : r * 1500 < 1500 := by nlinarith
    exact Int.floor_lt.2 (by exact_mod_cast hr)
  omega

lemma paymentProcessingTime_grid (k : Fin 1950) :
    paymentProcessingTime (((k : ℕ) : ℚ)/1950) = 50 + (k : ℕ) := by
  unfold paymentProcessingTime
  rw [div_mul_cancel₀ _ (by norm_num : (1950:ℚ) ≠ 0), Int.floor_natCast]
  omega

lemma refundProcessingTime_grid (k : Fin 1500) :
    refundProcessingTime (((k : ℕ) : ℚ)/1500) = 100 + (k : ℕ) := by
  unfold refundProcessingTime
  rw [div_mul_cancel₀ _ (by norm_num : (1500:ℚ) ≠ 0), Int.floor_natCast]
  omega

lemma processRefund_valid_result (ctx : Ctx) (req : RefundRequest)
    (p f : ℚ) (tok : String)
    (ha : req.paymentId.truthy) (hb : req.amount.truthy) :
    (processRefund ctx req p f tok).1.delay? = some (refundProcessingTime p) ∧
    ((processRefund ctx req p f tok).2.getLast?).bind Event.processing_time
      = some (refundProcessingTime p) := by
  unfold processRefund
  rw [ha, hb]
  by_cases hf : f < 15/100 <;>
    simp [hf, HandlerResult.delay?, List.getLast?]

/-- C9 counterexample: the payment delay can never reach 2000 ms and the
refund delay can never reach 1600 ms — `Math.floor(r*1950)+50` tops out at
1999 and `Math.floor(r*1500)+100` at 1599 when `r < 1`. -/
theorem processing_delay_counterexample :
    (¬ ∃ r : ℚ, 0 ≤ r ∧ r < 1 ∧ paymentProcessingTime r = 2000) ∧
    (¬ ∃ r : ℚ, 0 ≤ r ∧ r < 1 ∧ refundProcessingTime r = 1600) := by
  constructor <;> rintro ⟨r, h0, h1, heq⟩
  · have := (paymentProcessingTime_bounds h0 h1).2
    omega
  · have := (refundProcessingTime_bounds h0 h1).2
    omega

/-- C9 amended: for every payment request that passes validation the delay is
drawn uniformly from the inclusive range [50, 1999] ms, for every refund
request that passes validation from [100, 1599] ms; in each case the response
is delayed by that value and it appears as the processing_time field of the
outcome event. -/
theorem processing_delay_amended :
    (∀ r : ℚ, 0 ≤ r → r < 1 →
        50 ≤ paymentProcessingTime r ∧ paymentProcessingTime r ≤ 1999) ∧
    (∀ k : Fin 1950, paymentProcessingTime (((k : ℕ) : ℚ)/1950) = 50 + (k : ℕ)) ∧
    (∀ r : ℚ, 0 ≤ r → r < 1 →
        100 ≤ refundProcessingTime r ∧ refundProcessingTime r ≤ 1599) ∧
    (∀ k : Fin 1500, refundProcessingTime (((k : ℕ) : ℚ)/1500) = 100 + (k : ℕ)) ∧
    (∀ (ctx : Ctx) (req : PaymentRequest) (p fd t v r : ℚ) (tok : String),
        req.amount.truthy → req.currency.truthy → req.customerId.truthy →
        (processPayment ctx req p fd t v r tok).1.delay?
            = some (paymentProcessingTime p) ∧
          ((processPayment ctx req p fd t v r tok).2.getLast?).bind Event.processing_time
            = some (paymentProcessingTime p)) ∧
    (∀ (ctx : Ctx) (req : RefundRequest) (p f : ℚ) (tok : String),
        req.paymentId.truthy → req.amount.truthy →
        (processRefund ctx req p f tok).1.delay?
            = some (refundProcessingTime p) ∧
          ((processRefund ctx req p f tok).2.getLast?).bind Event.processing_time
            = some (refundProcessingTime p)) :=
  ⟨fun _ h0 h1 => paymentProcessingTime_bounds h0 h1,
   paymentProcessingTime_grid,
   fun _ h0 h1 => refundProcessingTime_bounds h0 h1,
   refundProcessingTime_grid,
   fun ctx req p fd t v r tok ha hb hc =>
     (processPayment_valid_result ctx req p fd t v r tok ha hb hc).2,
   processRefund_valid_result⟩

/-- C9 amended witness: the bounds and linkage at concrete draws. -/
theorem processing_delay_amended_witness :
    (0 : ℚ) ≤ 0 ∧ (0 : ℚ) < 1 ∧
    (50 ≤ paymentProcessingTime 0 ∧ paymentProcessingTime 0 ≤ 1999) ∧
    (processRefund ⟨"t", "x"⟩ ⟨.str "pmt_x", .num 5, .undef⟩ 0 0 "tok").1.delay?
      = some (refundProcessingTime 0) :=
  ⟨le_refl 0, by norm_num,
   processing_delay_amended.1 0 (le_refl 0) (by norm_num),
   (processing_delay_amended.2.2.2.2.2 ⟨"t", "x"⟩ ⟨.str "pmt_x", .num 5, .undef⟩
     0 0 "tok" (by decide) (by decide)).1⟩

/-- C3: a payment request missing `amount`, `currency` or `customerId` gets a
synchronous 400 `{success:false, error}` response — no delay, no payment id,
and a result that does not depend on any of the outcome draws. -/
theorem missing_fields_synchronous_400 :
    ∀ (ctx : Ctx) (req : PaymentRequest) (p fd t v r : ℚ) (tok : String),
      req.amount = .undef ∨ req.currency = .undef ∨ req.customerId = .undef →
      (processPayment ctx req p fd t v r tok).1
          = .immediate 400
              { success := false, error := some "Missing required fields for payment" } ∧
        (processPayment ctx req p fd t v r tok).1.delay? = none ∧
        (processPayment ctx req p fd t v r tok).1.body.payment_id = none ∧
        (∀ (p' fd' t' v' r' : ℚ) (tok' : String),
          processPayment ctx req p' fd' t' v' r' tok'
            = processPayment ctx req p fd t v r tok) := by
  intro ctx req p fd t v r tok h
  have hcond : (!req.amount.truthy || !req.currency.truthy || !req.customerId.truthy)
      = true := by
    rcases h with h | h | h <;> simp [h, JsValue.truthy]
  have hmain : ∀ (p' fd' t' v' r' : ℚ) (tok' : String),
      processPayment ctx req p' fd' t' v' r' tok'
        = (.immediate 400
             { success := false, error := some "Missing required fields for payment" },
           [{ level := "error", trace_id := ctx.traceId,
              transaction_id := ctx.transactionId,
              message := "Payment validation failed", status_code := some 400,
              error := some "Missing required fields",
              event_type := "payment_validation_error" }]) := by
    intro p' fd' t' v' r' tok'
    simp [processPayment, hcond]
  refine ⟨?_, ?_, ?_, fun p' fd' t' v' r' tok' => by rw [hmain, hmain]⟩ <;>
    rw [hmain] <;> rfl

/-- C3 witness: a request missing only `customerId` at concrete draws. -/
theorem missing_fields_synchronous_400_witness :
    ((JsValue.num 10 = .undef ∨ JsValue.str "USD" = .undef ∨
        (JsValue.undef : JsValue) = .undef) ∧
      (processPayment ⟨"t", "x"⟩ ⟨.num 10, .str "USD", .undef, .obj⟩
          (1/2) (1/2) (1/2) (1/2) (1/2) "tok").1
        = .immediate 400
            { success := false, error := some "Missing required fields for payment" }) :=
  ⟨Or.inr (Or.inr rfl),
   (missing_fields_synchronous_400 ⟨"t", "x"⟩ ⟨.num 10, .str "USD", .undef, .obj⟩
     (1/2) (1/2) (1/2) (1/2) (1/2) "tok" (Or.inr (Or.inr rfl))).1⟩

lemma statusLookup_status_mem (pid : String) (s d : ℚ) (h0 : 0 ≤ s) (h1 : s < 1) :
    (statusLookup pid s d).status ∈ statuses := by
  unfold statusLookup
  have hl : ((statuses.length : ℕ) : ℚ) = 4 := by norm_num [statuses]
  have hlb : (0:ℤ) ≤ ⌊s * ((statuses.length : ℕ) : ℚ)⌋ := by
    rw [hl]
    exact Int.floor_nonneg.2 (by positivity)
  have hub : ⌊s * ((statuses.length : ℕ) : ℚ)⌋ < 4 := by
    rw [hl]
    have hr : s * 4 < 4 := by nlinarith
    exact Int.floor_lt.2 (by exact_mod_cast hr)
  have hidx : (⌊s * ((statuses.length : ℕ) : ℚ)⌋).toNat = 0 ∨
      (⌊s * ((statuses.length : ℕ) : ℚ)⌋).toNat = 1 ∨
      (⌊s * ((statuses.length : ℕ) : ℚ)⌋).toNat = 2 ∨
      (⌊s * ((statuses.length : ℕ) : ℚ)⌋).toNat = 3 := by
    omega
  rcases hidx with h | h | h | h <;> rw [h] <;> simp [statuses, List.getD]

lemma statusLookup_grid (pid : String) (d : ℚ) (k : Fin 4) :
    (statusLookup pid (((k : ℕ) : ℚ)/4) d).status = statuses.getD (k : ℕ) "" := by
  unfold statusLookup
  have hl : ((statuses.length : ℕ) : ℚ) = 4 := by norm_num [statuses]
  rw [hl, div_mul_cancel₀ _ (by norm_num : (4:ℚ) ≠ 0), Int.floor_natCast]
  simp

lemma statusLookup_uniform (st : String) (hst : st ∈ statuses) :
    ((Finset.univ : Finset (Fin 4)).filter
      (fun (k : Fin 4) => (statusLookup "" (((k : ℕ) : ℚ)/4) 0).status = st)).card = 1 := by
  have he : ((Finset.univ : Finset (Fin 4)).filter
        (fun (k : Fin 4) => (statusLookup "" (((k : ℕ) : ℚ)/4) 0).status = st))
      = ((Finset.univ : Finset (Fin 4)).filter
          (fun (k : Fin 4) => statuses.getD (k : ℕ) "" = st)) := by
    apply Finset.filter_congr
    intro k _
    rw [statusLookup_grid]
  rw [he]
  have hcases : st = "completed" ∨ st = "pending" ∨ st = "failed" ∨ st = "refunded" := by
    simpa [statuses] using hst
  rcases hcases with rfl | rfl | rfl | rfl <;> decide

/-- C6: for every string payment id, the status lookup never errors: it
returns HTTP 200, echoes the id, and draws its status field uniformly from
exactly `{completed, pending, failed, refunded}`, independent of the id and
of any other draw (the handler keeps no state between calls). -/
theorem status_lookup_total_uniform :
    ∀ (pid : String) (s d : ℚ), 0 ≤ s → s < 1 →
      (statusLookup pid s d).httpStatus = 200 ∧
        (statusLookup pid s d).payment_id = pid ∧
        (statusLookup pid s d).status ∈ statuses ∧
        statuses = ["completed", "pending", "failed", "refunded"] ∧
        (∀ pid' : String, (statusLookup pid' s d).status = (statusLookup pid s d).status) ∧
        (∀ d' : ℚ, (statusLookup pid s d').status = (statusLookup pid s d).status) ∧
        (∀ st ∈ statuses,
          ((Finset.univ : Finset (Fin 4)).filter
            (fun (k : Fin 4) => (statusLookup "" (((k : ℕ) : ℚ)/4) 0).status = st)).card = 1) := by
  intro pid s d h0 h1
  exact ⟨rfl, rfl, statusLookup_status_mem pid s d h0 h1, rfl,
    fun pid' => rfl, fun d' => rfl, statusLookup_uniform⟩

/-- C6 witness: the lookup at the empty id and a concrete draw. -/
theorem status_lookup_total_uniform_witness :
    (0 : ℚ) ≤ 0 ∧ (0 : ℚ) < 1 ∧
    ((statusLookup "" 0 0).httpStatus = 200 ∧ (statusLookup "" 0 0).status ∈ statuses) := by
  have h := status_lookup_total_uniform "" 0 0 (le_refl 0) (by norm_num)
  exact ⟨le_refl 0, by norm_num, h.1, h.2.2.1⟩

lemma processPayment_events_ctx (ctx : Ctx) (req : PaymentRequest)
    (p fd t v r : ℚ) (tok : String) :
    ∀ e ∈ (processPayment ctx req p fd t v r tok).2,
      e.trace_id = ctx.traceId ∧ e.transaction_id = ctx.transactionId := by
  intro e he
  simp only [processPayment] at he
  split at he
  · simp at he
    subst he
    exact ⟨rfl, rfl⟩
  · split at he <;> simp at he <;> rcases he with rfl | rfl <;> exact ⟨rfl, rfl⟩

lemma processRefund_events_ctx (ctx : Ctx) (req : RefundRequest)
    (p f : ℚ) (tok : String) :
    ∀ e ∈ (processRefund ctx req p f tok).2,
      e.trace_id = ctx.traceId ∧ e.transaction_id = ctx.transactionId := by
  intro e he
  simp only [processRefund] at he
  split at he
  · simp at he
    subst he
    exact ⟨rfl, rfl⟩
  · split at he <;> simp at he <;> rcases he with rfl | rfl <;> exact ⟨rfl, rfl⟩

/-- C7: the correlation middleware keeps a present non-empty `x-trace-id`
header as the trace id and falls back to the fresh token otherwise, always
uses a fresh transaction id, writes both ids to the response headers, and
every event the payment and refund handlers emit carries the context's two
ids. -/
theorem correlation_middleware_contract :
    (∀ (h fresh txn : String), h ≠ "" →
        (correlationMiddleware (some h) fresh txn).1 = ⟨h, txn⟩) ∧
    (∀ fresh txn : String, (correlationMiddleware none fresh txn).1 = ⟨fresh, txn⟩) ∧
    (∀ fresh txn : String, (correlationMiddleware (some "") fresh txn).1 = ⟨fresh, txn⟩) ∧
    (∀ (header : Option String) (fresh txn : String),
        (correlationMiddleware header fresh txn).1.transactionId = txn ∧
          (correlationMiddleware header fresh txn).2.1
            = [("x-trace-id", (correlationMiddleware header fresh txn).1.traceId),
               ("x-transaction-id", txn)] ∧
          (correlationMiddleware header fresh txn).2.2.trace_id
            = (correlationMiddleware header fresh txn).1.traceId ∧
          (correlationMiddleware header fresh txn).2.2.transaction_id = txn) ∧
    (∀ (ctx : Ctx) (req : PaymentRequest) (p fd t v r : ℚ) (tok : String),
        ∀ e ∈ (processPayment ctx req p fd t v r tok).2,
          e.trace_id = ctx.traceId ∧ e.transaction_id = ctx.transactionId) ∧
    (∀ (ctx : Ctx) (req : RefundRequest) (p f : ℚ) (tok : String),
        ∀ e ∈ (processRefund ctx req p f tok).2,
          e.trace_id = ctx.traceId ∧ e.transaction_id = ctx.transactionId) := by
  refine ⟨fun h fresh txn hne => ?_, fun fresh txn => rfl, fun fresh txn => rfl,
    fun header fresh txn => ⟨rfl, rfl, rfl, rfl⟩,
    processPayment_events_ctx, processRefund_events_ctx⟩
  simp [correlationMiddleware, correlationTraceId, hne]

/-- C7 witness: a concrete non-empty header is kept, and the events of a
concrete payment call carry the context ids. -/
theorem correlation_middleware_contract_witness :
    ("abc" : String) ≠ "" ∧
    (correlationMiddleware (some "abc") "fresh" "txn").1 = ⟨"abc", "txn"⟩ := by
  refine ⟨by decide, correlation_middleware_contract.1 "abc" "fresh" "txn" (by decide)⟩

lemma foldl_pushPayment_drop (ids : List String) :
    List.foldl pushPayment [] ids = ids.drop (ids.length - 100) := by
  induction ids using List.reverseRecOn with
  | nil => rfl
  | append_singleton ids x ih =>
      rw [List.foldl_append, List.foldl_cons, List.foldl_nil, ih]
      unfold pushPayment
      by_cases hL : ids.length < 100
      · have h1 : ids.length - 100 = 0 := by omega
        rw [h1, List.drop_zero]
        have h2 : ¬ 100 < (ids ++ [x]).length := by
          rw [List.length_append]
          simp
          omega
        rw [if_neg h2]
        have h3 : (ids ++ [x]).length - 100 = 0 := by
          rw [List.length_append]
          simp
          omega
        rw [h3, List.drop_zero]
      · push_neg at hL
        have hlen : (ids.drop (ids.length - 100)).length = 100 := by
          rw [List.length_drop]
          omega
        have hcond : 100 < (ids.drop (ids.length - 100) ++ [x]).length := by
          rw [List.length_append, hlen]
          simp
        rw [if_pos hcond]
        rw [List.drop_append_of_le_length
          (by omega : 1 ≤ (ids.drop (ids.length - 100)).length)]
        rw [List.drop_drop]
        have h4 : (ids ++ [x]).length - 100 = (ids.length + 1) - 100 := by
          rw [List.length_append]
          simp
        rw [h4]
        rw [List.drop_append_of_le_length
          (by omega : (ids.length + 1) - 100 ≤ ids.length)]
        have h5 : ids.length - 100 + 1 = ids.length + 1 - 100 := by omega
        rw [h5]

/-- C2 counterexample: not every successful payment's id is appended to the
pool — the fallback payments that the status-lookup and refund branches make
on an empty pool discard their ids.  A tick drawing 0.7 (or 0.85) on the
empty pool issues a payment; even when it succeeds with id `"p"`, the pool
stays empty, whereas an appended id would have made it `["p"]`. -/
theorem pool_append_counterexample :
    tick (7/10) 0 0 (some "p") [] = (.payment, []) ∧
    tick (85/100) 0 0 (some "p") [] = (.payment, []) ∧
    "p" ∉ (tick (7/10) 0 0 (some "p") []).2 ∧
    pushPayment [] "p" = ["p"] := by
  have h1 : tick (7/10) 0 0 (some "p") [] = (.payment, []) := by
    simp only [tick]
    rw [if_neg (by norm_num : ¬ (7:ℚ)/10 < 6/10),
      if_pos (by norm_num : (7:ℚ)/10 < 8/10)]
    simp
  have h2 : tick (85/100) 0 0 (some "p") [] = (.payment, []) := by
    simp only [tick]
    rw [if_neg (by norm_num : ¬ (85:ℚ)/100 < 6/10),
      if_neg (by norm_num : ¬ (85:ℚ)/100 < 8/10),
      if_pos (by norm_num : (85:ℚ)/100 < 95/100)]
    simp
  refine ⟨h1, h2, ?_, rfl⟩
  rw [h1]
  simp

/-- C2 amended: the id of every successful payment made by the new-payment
branch of the tick loop is appended to the pool (a failed one leaves it
unchanged); an append on a pool below 100 entries just appends, on a full
pool of 100 it evicts the oldest entry first-in-first-out; the pool never
exceeds 100 entries, and after 150 sequential successful new-payment-branch
payments it contains exactly the 100 most recent appended ids in order. -/
theorem payment_pool_bounded_fifo_amended :
    (∀ (rT rI rC : ℚ) (pid : String) (pool : List String), rT < 6/10 →
        (tick rT rI rC (some pid) pool).2 = pushPayment pool pid) ∧
    (∀ (rT rI rC : ℚ) (pool : List String), rT < 6/10 →
        (tick rT rI rC none pool).2 = pool) ∧
    (∀ (pool : List String) (pid : String), pool.length < 100 →
        pushPayment pool pid = pool ++ [pid]) ∧
    (∀ (pool : List String) (pid : String), pool.length = 100 →
        pushPayment pool pid = pool.drop 1 ++ [pid]) ∧
    (∀ ids : List String, List.foldl pushPayment [] ids = ids.drop (ids.length - 100)) ∧
    (∀ ids : List String, (List.foldl pushPayment [] ids).length ≤ 100) ∧
    (∀ (pool : List String) (pid : String), pool.length ≤ 100 →
        (pushPayment pool pid).length ≤ 100) ∧
    (∀ ids : List String, ids.length = 150 →
        List.foldl pushPayment [] ids = ids.drop 50) := by
  refine ⟨fun rT rI rC pid pool h => ?_, fun rT rI rC pool h => ?_,
    fun pool pid hlt => ?_, fun pool pid heq => ?_,
    foldl_pushPayment_drop, fun ids => ?_, fun pool pid hp => ?_,
    fun ids h150 => ?_⟩
  · simp only [tick]
    rw [if_pos h]
  · simp only [tick]
    rw [if_pos h]
  · have hlen : (pool ++ [pid]).length = pool.length + 1 := by
      rw [List.length_append]
      simp
    unfold pushPayment
    rw [if_neg (by omega : ¬ 100 < (pool ++ [pid]).length)]
  · have hlen : (pool ++ [pid]).length = pool.length + 1 := by
      rw [List.length_append]
      simp
    unfold pushPayment
    rw [if_pos (by omega : 100 < (pool ++ [pid]).length)]
    rw [List.drop_append_of_le_length (by omega : 1 ≤ pool.length)]
  · rw [foldl_pushPayment_drop, List.length_drop]
    omega
  · have hlen : (pool ++ [pid]).length = pool.length + 1 := by
      rw [List.length_append]
      simp
    unfold pushPayment
    by_cases hc : 100 < (pool ++ [pid]).length
    · rw [if_pos hc, List.length_drop, hlen]
      omega
    · rw [if_neg hc, hlen]
      rw [hlen] at hc
      omega
  · rw [foldl_pushPayment_drop, h150]

/-- C2 amended witness: a successful new-payment tick appends its id to the
empty pool, one push keeps the bound, and a concrete 150-id sequence leaves
exactly its last 100 ids. -/
theorem payment_pool_bounded_fifo_amended_witness :
    ((0 : ℚ) < 6/10 ∧ (tick 0 0 0 (some "p") []).2 = pushPayment [] "p") ∧
    (([] : List String).length < 100 ∧ pushPayment [] "p" = [] ++ ["p"]) ∧
    (([] : List String).length ≤ 100 ∧ (pushPayment [] "p").length ≤ 100) ∧
    ((List.range 150).map toString).length = 150 ∧
    List.foldl pushPayment [] ((List.range 150).map toString)
      = ((List.range 150).map toString).drop 50 :=
  ⟨⟨by norm_num,
    payment_pool_bounded_fifo_amended.1 0 0 0 "p" [] (by norm_num)⟩,
   ⟨by simp, payment_pool_bounded_fifo_amended.2.2.1 [] "p" (by simp)⟩,
   ⟨by simp, payment_pool_bounded_fifo_amended.2.2.2.2.2.2.1 [] "p" (by simp)⟩,
   by simp,
   payment_pool_bounded_fifo_amended.2.2.2.2.2.2.2 _ (by simp)⟩

lemma chooseIndex_grid (n : ℕ) (k : Fin n) :
    chooseIndex (((k : ℕ) : ℚ)/(n : ℚ)) n = (k : ℕ) := by
  unfold chooseIndex
  have hn0 : 0 < n := Nat.lt_of_le_of_lt (Nat.zero_le _) k.isLt
  have hn : ((n : ℕ) : ℚ) ≠ 0 := by
    exact_mod_cast Nat.pos_iff_ne_zero.1 hn0
  rw [div_mul_cancel₀ _ hn, Int.floor_natCast]
  simp

/-- C4: one uniform draw per generator tick selects the action by the
cumulative thresholds 0.6 / 0.8 / 0.95: new payment, status lookup on a
uniformly chosen pool entry (payment fallback on the empty pool), refund on
a uniformly chosen pool entry with a coin-flip strictly above 1/2 evicting
that entry (payment fallback on the empty pool), otherwise a health probe;
the index draw on the uniform grid selects each pool position exactly once,
and the eviction coin fires on exactly one of the two uniform cells. -/
theorem generator_tick_thresholds :
    (∀ (rT rI rC : ℚ) (payRes : Option String) (pool : List String),
        rT < 6/10 → (tick rT rI rC payRes pool).1 = .payment) ∧
    (∀ (rT rI rC : ℚ) (payRes : Option String) (pool : List String),
        rT < 6/10 →
        (tick rT rI rC payRes pool).2
          = (match payRes with
             | some pid => pushPayment pool pid
             | none => pool)) ∧
    (∀ (rT rI rC : ℚ) (payRes : Option String) (pool : List String),
        6/10 ≤ rT → rT < 8/10 → pool ≠ [] →
        tick rT rI rC payRes pool
          = (.statusCheck (pool.getD (chooseIndex rI pool.length) ""), pool)) ∧
    (∀ (rT rI rC : ℚ) (payRes : Option String),
        6/10 ≤ rT → rT < 8/10 → tick rT rI rC payRes [] = (.payment, [])) ∧
    (∀ (rT rI rC : ℚ) (payRes : Option String) (pool : List String),
        8/10 ≤ rT → rT < 95/100 → pool ≠ [] →
        tick rT rI rC payRes pool
          = (.refund (pool.getD (chooseIndex rI pool.length) ""),
             if 1/2 < rC then pool.eraseIdx (chooseIndex rI pool.length) else pool)) ∧
    (∀ (rT rI rC : ℚ) (payRes : Option String),
        8/10 ≤ rT → rT < 95/100 → tick rT rI rC payRes [] = (.payment, [])) ∧
    (∀ (rT rI rC : ℚ) (payRes : Option String) (pool : List String),
        95/100 ≤ rT → (tick rT rI rC payRes pool).1 = .healthCheck) ∧
    (∀ (n : ℕ) (k : Fin n), chooseIndex (((k : ℕ) : ℚ)/(n : ℚ)) n = (k : ℕ)) ∧
    ((Finset.univ : Finset (Fin 2)).filter
      (fun (k : Fin 2) => 1/2 < ((2 * (k : ℕ) + 1 : ℕ) : ℚ)/4)).card = 1 := by
  refine ⟨fun rT rI rC payRes pool h => ?_, fun rT rI rC payRes pool h => ?_,
    fun rT rI rC payRes pool h1 h2 h3 => ?_, fun rT rI rC payRes h1 h2 => ?_,
    fun rT rI rC payRes pool h1 h2 h3 => ?_, fun rT rI rC payRes h1 h2 => ?_,
    fun rT rI rC payRes pool h => ?_, chooseIndex_grid, ?_⟩
  · simp only [tick]
    rw [if_pos h]
  · simp only [tick]
    rw [if_pos h]
  · have hpos : 0 < pool.length := List.length_pos.2 h3
    simp only [tick]
    rw [if_neg (not_lt.2 h1), if_pos h2, if_pos hpos]
  · simp only [tick]
    rw [if_neg (not_lt.2 h1), if_pos h2]
    simp
  · have hpos : 0 < pool.length := List.length_pos.2 h3
    simp only [tick]
    rw [if_neg (not_lt.2 (by linarith : (6:ℚ)/10 ≤ rT)),
      if_neg (not_lt.2 h1), if_pos h2, if_pos hpos]
  · simp only [tick]
    rw [if_neg (not_lt.2 (by linarith : (6:ℚ)/10 ≤ rT)),
      if_neg (not_lt.2 h1), if_pos h2]
    simp
  · simp only [tick]
    rw [if_neg (not_lt.2 (by linarith : (6:ℚ)/10 ≤ rT)),
      if_neg (not_lt.2 (by linarith : (8:ℚ)/10 ≤ rT)),
      if_neg (not_lt.2 h)]
  · have he : ((Finset.univ : Finset (Fin 2)).filter
        (fun (k : Fin 2) => 1/2 < ((2 * (k : ℕ) + 1 : ℕ) : ℚ)/4))
        = ((Finset.univ : Finset (Fin 2)).filter (fun (k : Fin 2) => 0 < (k : ℕ))) := by
      apply Finset.filter_congr
      intro k _
      fin_cases k <;> norm_num
    rw [he]
    decide

/-- C4 witness: the four branches at concrete draws and pools. -/
theorem generator_tick_thresholds_witness :
    ((0 : ℚ) < 6/10 ∧ (tick 0 0 0 none []).1 = .payment) ∧
    ((6 : ℚ)/10 ≤ 7/10 ∧ (7 : ℚ)/10 < 8/10 ∧ (["a"] : List String) ≠ [] ∧
      tick (7/10) 0 0 none ["a"]
        = (.statusCheck ((["a"] : List String).getD (chooseIndex 0 1) ""), ["a"])) ∧
    ((8 : ℚ)/10 ≤ 9/10 ∧ (9 : ℚ)/10 < 95/100 ∧
      tick (9/10) 0 (3/4) none ["a"]
        = (.refund ((["a"] : List String).getD (chooseIndex 0 1) ""),
           if (1:ℚ)/2 < 3/4 then (["a"] : List String).eraseIdx (chooseIndex 0 1)
           else ["a"])) ∧
    ((95 : ℚ)/100 ≤ 1 ∧ (tick 1 0 0 none ["a"]).1 = .healthCheck) :=
  ⟨⟨by norm_num, generator_tick_thresholds.1 0 0 0 none [] (by norm_num)⟩,
   ⟨by norm_num, by norm_num, by simp,
    generator_tick_thresholds.2.2.1 (7/10) 0 0 none ["a"] (by norm_num) (by norm_num)
      (by simp)⟩,
   ⟨by norm_num, by norm_num,
    generator_tick_thresholds.2.2.2.2.1 (9/10) 0 (3/4) none ["a"] (by norm_num)
      (by norm_num) (by simp)⟩,
   ⟨by norm_num, generator_tick_thresholds.2.2.2.2.2.2.1 1 0 0 none ["a"] (by norm_num)⟩⟩

/-- C10: `payment-service/app.js` declares the `const` binding `logger`
twice at module top level, so JavaScript module instantiation fails with a
`SyntaxError` before any statement runs and the server is never created. -/
theorem payment_service_module_load_fails :
    paymentServiceConsts.count "logger" = 2 ∧
    ¬ paymentServiceConsts.Nodup ∧
    jsModuleLoad paymentServiceConsts
      = .error "SyntaxError: Identifier has already been declared" ∧
    paymentServiceStarts = false := by
  have hnd : ¬ paymentServiceConsts.Nodup := by decide
  refine ⟨by decide, hnd, ?_, ?_⟩
  · simp [jsModuleLoad, hnd]
  · simp [paymentServiceStarts, jsModuleLoad, hnd, Except.toBool]

end PaymentSim
